import Mathlib

/-!
Verification of the token-brokering core of this repository against its
specification.  Two broker implementations are embedded:

* the function-style broker `src/supabase/functions/get-powerbi-embed-config/index.ts`
  (Deno `serve` handler), modelled by `handleRequest`;
* the route-style broker `src/packages/token-api` (Express routes in the
  unnamed route file together with `powerbiService.js` and `authService`),
  modelled by `routeGetConfig` / `getEmbedConfigT`.

Network calls (Azure AD client-credentials grant, Power BI report-metadata
fetch, Power BI GenerateToken mint, Supabase JWT verification) are external
collaborators; each is represented by an oracle value giving the outcome the
network would return, while all control flow, message construction, field
validation, status-code mapping and payload assembly are translated directly
from the source.  Environment variables that only flow into request URLs
(`POWERBI_SCOPE`, `POWERBI_API_URL`) are omitted because no branch of the
embedded code inspects them.
-/

/-- JavaScript-style substring search on character lists: `leadsWith p s` is
`true` iff `p` is an initial segment of `s`. -/
def leadsWith : List Char → List Char → Bool
  | [], _ => true
  | _ :: _, [] => false
  | p :: ps, c :: cs => (p == c) && leadsWith ps cs

/-- `charsInclude s p` is `true` iff the (non-empty) pattern `p` occurs as a
contiguous run inside `s`; mirrors JavaScript `String.prototype.includes`. -/
def charsInclude : List Char → List Char → Bool
  | _, [] => true
  | [], _ :: _ => false
  | c :: cs, p :: ps => leadsWith (p :: ps) (c :: cs) || charsInclude cs (p :: ps)

/-- JavaScript `msg.includes(pat)` for the broker's status-code mapping. -/
def strIncludes (s pat : String) : Bool := charsInclude s.data pat.data

/-- JavaScript `s.startsWith(pat)`. -/
def strStartsWith (s pat : String) : Bool := leadsWith pat.data s.data

/-- JavaScript truthiness of a `string | undefined` value: `undefined` and the
empty string are falsy.  Used for every `if (!x)` test on environment values
and parameters in both brokers. -/
def truthy : Option String → Bool
  | none => false
  | some s => !(s == "")

/-- Status-code mapping of the function-style broker
(`index.ts` lines 313-314): `error.message.includes('Invalid or expired
token') ? 401 : error.message.includes('Missing') ? 400 : 500`. -/
def statusCode (msg : String) : Nat :=
  if strIncludes msg "Invalid or expired token" then 401
  else if strIncludes msg "Missing" then 400
  else 500

/-- A primitive JSON value, enough to express the `typeof` checks and the
pass-through of upstream response fields. -/
inductive JsonPrim where
  | str (s : String)
  | num (n : Int)
  | boolean (b : Bool)
  | null
deriving DecidableEq

/-- Raw JSON object returned by Power BI's GenerateToken endpoint, before any
shape validation: each field may be absent (`none`, JavaScript `undefined`)
or present with an arbitrary primitive type. -/
structure RawEmbedTokenData where
  token : Option JsonPrim
  tokenId : Option JsonPrim
  expiration : Option JsonPrim
deriving DecidableEq

/-- `PowerBIReportResponse` of `index.ts` lines 33-38. -/
structure PowerBIReportResponse where
  id : String
  name : String
  embedUrl : String
  datasetId : String
deriving DecidableEq

/-- `settings.panes.filters` of the assembled configuration. -/
structure FilterPaneSettings where
  expanded : Bool
  visible : Bool
deriving DecidableEq

/-- `settings.panes.pageNavigation`. -/
structure PageNavigationSettings where
  visible : Bool
deriving DecidableEq

/-- `settings.bars.statusBar`. -/
structure StatusBarSettings where
  visible : Bool
deriving DecidableEq

/-- `settings.panes`. -/
structure PanesSettings where
  filters : FilterPaneSettings
  pageNavigation : PageNavigationSettings
deriving DecidableEq

/-- `settings.bars`. -/
structure BarsSettings where
  statusBar : StatusBarSettings
deriving DecidableEq

/-- The display-settings object attached to every assembled configuration. -/
structure EmbedSettings where
  panes : PanesSettings
  bars : BarsSettings
deriving DecidableEq

/-- The settings literal built at `index.ts` lines 276-291 and
`powerbiService.js` lines 124-139 (identical in both brokers). -/
def defaultEmbedSettings : EmbedSettings :=
  { panes := { filters := { expanded := false, visible := true },
               pageNavigation := { visible := true } },
    bars := { statusBar := { visible := true } } }

/-- `PowerBIEmbedConfig` (`index.ts` lines 11-19).  The three token-derived
fields keep the raw JSON values because neither broker validates them before
copying them into the payload (JavaScript copies `undefined` silently). -/
structure PowerBIEmbedConfig where
  type : String
  id : String
  embedUrl : String
  accessToken : Option JsonPrim
  tokenId : Option JsonPrim
  expiration : Option JsonPrim
  settings : EmbedSettings
deriving DecidableEq

/-- The embed-configuration construction shared by `index.ts` lines 269-292
and `powerbiService.js` lines 117-140. -/
def buildEmbedConfig (rd : PowerBIReportResponse) (raw : RawEmbedTokenData) :
    PowerBIEmbedConfig :=
  { type := "report",
    id := rd.id,
    embedUrl := rd.embedUrl,
    accessToken := raw.token,
    tokenId := raw.tokenId,
    expiration := raw.expiration,
    settings := defaultEmbedSettings }

/-- The JWT payload fields the handler reads (`jwtPayload.sub`,
`jwtPayload.email`). -/
structure JwtPayload where
  sub : Option String
  email : Option String
deriving DecidableEq

/-- Oracle for the three cryptographic verification attempts inside
`verifySupabaseJWT` (`index.ts` lines 174-217): the result `djwt.verify`
would give for the base64-string secret, for the decoded secret bytes, and
for the imported `CryptoKey`, plus whether base64-decoding the secret at
line 176 succeeds at all. -/
structure JwtVerifyOracle where
  decodeOk : Bool
  verifyString : Option JwtPayload
  verifyBytes : Option JwtPayload
  verifyKey : Option JwtPayload
deriving DecidableEq

/-- `verifySupabaseJWT` (`index.ts` lines 160-226).  The header and secret
checks happen before the `try` block, so their messages propagate verbatim;
every failure inside the block is converted by the outer `catch` to
`'Invalid or expired token'`.  The three verification attempts run in order
and the first success is returned. -/
def verifySupabaseJWT (authHeader : Option String) (jwtSecret : Option String)
    (o : JwtVerifyOracle) : Except String JwtPayload :=
  match authHeader with
  | none => .error "Missing or invalid Authorization header"
  | some h =>
    if !(strStartsWith h "Bearer ") then
      .error "Missing or invalid Authorization header"
    else if !(truthy jwtSecret) then
      .error "Missing _SUPABASE_JWT_SECRET environment variable"
    else if !o.decodeOk then
      .error "Invalid or expired token"
    else
      match o.verifyString with
      | some p => .ok p
      | none =>
        match o.verifyBytes with
        | some p => .ok p
        | none =>
          match o.verifyKey with
          | some p => .ok p
          | none => .error "Invalid or expired token"

/-- Environment configuration read by the function-style broker.  URL-only
variables are omitted (see the header comment). -/
structure BrokerEnv where
  azureClientId : Option String
  azureClientSecret : Option String
  azureTenantId : Option String
  powerbiWorkspaceId : Option String
  powerbiReportId : Option String
  supabaseJwtSecret : Option String
deriving DecidableEq

/-- Oracle for the Azure AD client-credentials grant: whether the token
endpoint responds with success, the token on success, and the HTTP status
plus body text on failure. -/
structure GrantOracle where
  ok : Bool
  accessToken : String
  httpStatus : Nat
  errorText : String
deriving DecidableEq

/-- The upstream network calls the broker can attempt, in pipeline order. -/
inductive UpstreamCall where
  | grant
  | reportFetch
  | mint
deriving DecidableEq

/-- `getAzureAccessToken` (`index.ts` lines 43-82), paired with the list of
upstream calls it attempts: the configuration check precedes the `fetch`, so
a missing credential attempts no call at all. -/
def getAzureAccessTokenT (env : BrokerEnv) (g : GrantOracle) :
    Except String String × List UpstreamCall :=
  if !(truthy env.azureClientId && truthy env.azureClientSecret
        && truthy env.azureTenantId) then
    (.error "Missing Azure Service Principal configuration", [])
  else if g.ok then
    (.ok g.accessToken, [.grant])
  else
    (.error ("Failed to acquire Azure AD token: " ++ toString g.httpStatus
              ++ " " ++ g.errorText), [.grant])

/-- The body of the outbound GenerateToken request
(`index.ts` lines 122-134). -/
structure RlsIdentity where
  username : String
  roles : List String
  datasets : List String
deriving DecidableEq

/-- `identities` is `none` when the field is absent from the JSON body. -/
structure MintRequestBody where
  accessLevel : String
  allowSaveAs : Bool
  identities : Option (List RlsIdentity)
deriving DecidableEq

/-- Request-body construction of `generatePowerBIEmbedToken`
(`index.ts` lines 122-134): `identities` is added only when `userId` is
truthy (`if (userId)`), with empty `roles` and `datasets`. -/
def mintRequestBody : Option String → MintRequestBody
  | none => { accessLevel := "View", allowSaveAs := false, identities := none }
  | some u =>
    if u == "" then
      { accessLevel := "View", allowSaveAs := false, identities := none }
    else
      { accessLevel := "View", allowSaveAs := false,
        identities := some [{ username := u, roles := [], datasets := [] }] }

/-- Request body built by `PowerBIService.generateEmbedToken`
(`powerbiService.js` lines 30-33): that variant never sends `identities`. -/
def tokenApiMintRequestBody : MintRequestBody :=
  { accessLevel := "View", allowSaveAs := false, identities := none }

/-- Typed embed-token response after successful validation
(`PowerBIEmbedTokenResponse`, `index.ts` lines 27-31). -/
structure PowerBIEmbedTokenResponse where
  token : String
  tokenId : String
  expiration : String
deriving DecidableEq

/-- The distinct error thrown by the validating broker variant when the
GenerateToken response is malformed (unnamed part_000, line 179). -/
def mintMalformedMsg : String :=
  "Power BI embed token response is missing expected \"token\", \"tokenId\", or \"expiration\" properties"

/-- Response-shape validation of the part_000 broker variant (lines 177-180):
`token`, `tokenId` and `expiration` must each be present with JavaScript
`typeof === 'string'`; anything else is rejected with `mintMalformedMsg`. -/
def validateEmbedTokenResponse (d : RawEmbedTokenData) :
    Except String PowerBIEmbedTokenResponse :=
  match d.token, d.tokenId, d.expiration with
  | some (.str t), some (.str k), some (.str e) => .ok ⟨t, k, e⟩
  | _, _, _ => .error mintMalformedMsg

/-- `true` iff the raw JSON field holds a string, i.e. passes the
`typeof x === 'string'` test. -/
def isStringPrim : Option JsonPrim → Bool
  | some (.str _) => true
  | _ => false

/-- The inbound HTTP request as seen by the function-style broker. -/
structure BrokerRequest where
  method : String
  authorization : Option String
deriving DecidableEq

/-- Outcome of one brokering request: CORS preflight short-circuit, success
envelope with the assembled configuration, or error envelope message. -/
inductive BrokerOutcome where
  | preflight
  | success (cfg : PowerBIEmbedConfig)
  | failure (msg : String)
deriving DecidableEq

/-- HTTP status, envelope outcome, and the ordered list of upstream calls
attempted while producing the response. -/
structure BrokerResult where
  status : Nat
  outcome : BrokerOutcome
  calls : List UpstreamCall
deriving DecidableEq

/-- The `serve` handler of `index.ts` (lines 231-331).  Pipeline order as in
the source: CORS preflight, `verifySupabaseJWT` on `authHeader || ''`,
workspace/report configuration check, `getAzureAccessToken`, then
`Promise.all` of the report-metadata fetch and the embed-token mint.  Any
thrown message is mapped to a status by `statusCode`.  `ro` and `mo` are the
oracles for the two Power BI calls; the mint response is returned by the
source without shape validation, so `mo` carries raw JSON fields. -/
def handleRequest (env : BrokerEnv) (req : BrokerRequest) (jo : JwtVerifyOracle)
    (go : GrantOracle) (ro : Except String PowerBIReportResponse)
    (mo : Except String RawEmbedTokenData) : BrokerResult :=
  if req.method == "OPTIONS" then
    { status := 200, outcome := .preflight, calls := [] }
  else
    match verifySupabaseJWT (some ((req.authorization).getD ""))
        env.supabaseJwtSecret jo with
    | .error e => { status := statusCode e, outcome := .failure e, calls := [] }
    | .ok _payload =>
      if !(truthy env.powerbiWorkspaceId && truthy env.powerbiReportId) then
        { status := statusCode "Missing Power BI workspace or report configuration",
          outcome := .failure "Missing Power BI workspace or report configuration",
          calls := [] }
      else
        match getAzureAccessTokenT env go with
        | (.error e, cs) =>
          { status := statusCode e, outcome := .failure e, calls := cs }
        | (.ok _tok, cs) =>
          match ro, mo with
          | .error e, _ =>
            { status := statusCode e, outcome := .failure e,
              calls := cs ++ [.reportFetch, .mint] }
          | .ok _, .error e =>
            { status := statusCode e, outcome := .failure e,
              calls := cs ++ [.reportFetch, .mint] }
          | .ok rd, .ok raw =>
            { status := 200, outcome := .success (buildEmbedConfig rd raw),
              calls := cs ++ [.reportFetch, .mint] }

/-- Oracle for `ConfidentialClientApplication.acquireTokenByClientCredential`
inside `authService.getAccessToken`: whether MSAL resolves, the token it
returns (`""` models a response without `accessToken`), and the error
message when it rejects. -/
structure MsalOracle where
  ok : Bool
  accessToken : String
  errorMsg : String
deriving DecidableEq

/-- `authService.getAccessToken` (token-api `authService`): a missing or
empty `response.accessToken` raises `'Failed to acquire access token'`, and
the surrounding `catch` wraps every failure as
`'Authentication failed: ...'`. -/
def authGetAccessToken (o : MsalOracle) : Except String String :=
  if o.ok then
    if o.accessToken == "" then
      .error ("Authentication failed: " ++ "Failed to acquire access token")
    else
      .ok o.accessToken
  else
    .error ("Authentication failed: " ++ o.errorMsg)

/-- Power BI configuration of the token-api broker
(`config.powerbi.workspaceId` / `config.powerbi.reportId`). -/
structure TokenApiConfig where
  workspaceId : Option String
  reportId : Option String
deriving DecidableEq

/-- JavaScript `a || b` on `string | undefined` values, as used for
`reportId || config.powerbi.reportId` in `powerbiService.js`. -/
def jsOr (a b : Option String) : Option String :=
  if truthy a then a else b

/-- `PowerBIService.getEmbedConfig` (`powerbiService.js` lines 104-148),
paired with the ordered upstream calls it attempts.  `getAccessToken` runs
first; then `Promise.all` starts `getReportDetails` (whose fetch is issued
unconditionally) and `generateEmbedToken` (which throws
`'Report ID and Workspace ID are required'` before its fetch when either id
is falsy; that synchronous rejection settles before the metadata fetch, so
it is the error `Promise.all` propagates).  Neither call validates the mint
response shape, so the raw JSON flows into `buildEmbedConfig`. -/
def getEmbedConfigT (cfg : TokenApiConfig) (qReportId qWorkspaceId : Option String)
    (ao : MsalOracle) (ro : Except String PowerBIReportResponse)
    (mo : Except String RawEmbedTokenData) :
    Except String PowerBIEmbedConfig × List UpstreamCall :=
  match authGetAccessToken ao with
  | .error e => (.error e, [.grant])
  | .ok _tok =>
    if !(truthy (jsOr qReportId cfg.reportId)
          && truthy (jsOr qWorkspaceId cfg.workspaceId)) then
      (.error "Report ID and Workspace ID are required", [.grant, .reportFetch])
    else
      match ro, mo with
      | .error e, _ => (.error e, [.grant, .reportFetch, .mint])
      | .ok _, .error e => (.error e, [.grant, .reportFetch, .mint])
      | .ok rd, .ok raw =>
        (.ok (buildEmbedConfig rd raw), [.grant, .reportFetch, .mint])

/-- The inbound request to the route-style broker: the Express request's
Authorization header and the two recognised query parameters. -/
structure RouteRequest where
  authorization : Option String
  queryReportId : Option String
  queryWorkspaceId : Option String
deriving DecidableEq

/-- Response of a token-api route: status, `success` flag, `data`/`error`
fields of the JSON envelope, and the upstream calls attempted. -/
structure RouteResult where
  status : Nat
  success : Bool
  data : Option PowerBIEmbedConfig
  error : Option String
  calls : List UpstreamCall
deriving DecidableEq

/-- `router.get('/config')` of the token-api embed routes (unnamed part_004,
lines 10-30): it reads only the query parameters, never the Authorization
header, and its `catch` maps every failure to status 500. -/
def routeGetConfig (cfg : TokenApiConfig) (req : RouteRequest) (ao : MsalOracle)
    (ro : Except String PowerBIReportResponse)
    (mo : Except String RawEmbedTokenData) : RouteResult :=
  match getEmbedConfigT cfg req.queryReportId req.queryWorkspaceId ao ro mo with
  | (.ok c, cs) =>
    { status := 200, success := true, data := some c, error := none, calls := cs }
  | (.error e, cs) =>
    { status := 500, success := false, data := none, error := some e, calls := cs }

/-- A network call with an explicit duration, for the concurrency claim:
`dur` is the call's latency and `result` its outcome. -/
structure TimedCall (α : Type) where
  dur : Nat
  result : Except String α

/-- JavaScript `Promise.all` over two promises that are both created (hence
both started) before the `await`, as at `index.ts` lines 263-266 and
`powerbiService.js` lines 112-115: with both tasks starting at time 0, the
pair resolves at `max` of the durations when both succeed, and rejects at
the moment of the earliest rejection with that rejection's error (array
order breaking the tie). -/
def promiseAll2 {α β : Type} (a : TimedCall α) (b : TimedCall β) :
    TimedCall (α × β) :=
  match a.result, b.result with
  | .ok x, .ok y => { dur := max a.dur b.dur, result := .ok (x, y) }
  | .error e, .ok _ => { dur := a.dur, result := .error e }
  | .ok _, .error e => { dur := b.dur, result := .error e }
  | .error ea, .error eb =>
    if b.dur < a.dur then { dur := b.dur, result := .error eb }
    else { dur := a.dur, result := .error ea }

/-- The parallel assembly step of both brokers, with timing: the
report-metadata fetch and the embed-token mint joined by `Promise.all`, the
merged configuration built from the pair on success. -/
def assembleTimed (r : TimedCall PowerBIReportResponse)
    (m : TimedCall RawEmbedTokenData) : TimedCall PowerBIEmbedConfig :=
  { dur := (promiseAll2 r m).dur,
    result :=
      match (promiseAll2 r m).result with
      | .ok (rd, raw) => .ok (buildEmbedConfig rd raw)
      | .error e => .error e }

/-- A fully-populated environment for concrete evaluations. -/
def sampleEnv : BrokerEnv :=
  { azureClientId := some "cid", azureClientSecret := some "sec",
    azureTenantId := some "tid", powerbiWorkspaceId := some "ws",
    powerbiReportId := some "rp", supabaseJwtSecret := some "jwt-secret" }

/-- A JWT payload for the authenticated sample user. -/
def samplePayload : JwtPayload :=
  { sub := some "user-1", email := some "user@example.com" }

/-- Verification oracle under which the first attempt succeeds. -/
def sampleJwtOracle : JwtVerifyOracle :=
  { decodeOk := true, verifyString := some samplePayload,
    verifyBytes := none, verifyKey := none }

/-- A grant oracle for a successful client-credentials exchange. -/
def sampleGrantOk : GrantOracle :=
  { ok := true, accessToken := "az-token", httpStatus := 200, errorText := "" }

/-- The report metadata of the specification's round-trip test. -/
def sampleReport : PowerBIReportResponse :=
  { id := "r1", name := "", embedUrl := "https://x", datasetId := "d1" }

/-- The embed-token response of the specification's round-trip test. -/
def sampleRaw : RawEmbedTokenData :=
  { token := some (.str "t1"), tokenId := some (.str "k1"),
    expiration := some (.str "2099-01-01T00:00:00Z") }

/-- An authenticated GET request. -/
def sampleAuthedReq : BrokerRequest :=
  { method := "GET", authorization := some "Bearer session-token" }

/-- A GenerateToken response with `tokenId` absent, as in the
specification's malformed-response test. -/
def sampleRawMissingTokenId : RawEmbedTokenData :=
  { token := some (.str "t1"), tokenId := none,
    expiration := some (.str "2099-01-01T00:00:00Z") }

/-- Verification oracle under which only the second (decoded-bytes) attempt
succeeds. -/
def fallbackOracleBytes : JwtVerifyOracle :=
  { decodeOk := true, verifyString := none, verifyBytes := some samplePayload,
    verifyKey := none }

/-- Verification oracle under which all three attempts fail. -/
def fallbackOracleNone : JwtVerifyOracle :=
  { decodeOk := true, verifyString := none, verifyBytes := none,
    verifyKey := none }

/-- A failed grant whose upstream body text contains the word `Missing`. -/
def grantFailMissingText : GrantOracle :=
  { ok := false, accessToken := "", httpStatus := 400,
    errorText := "Missing client_secret" }

/-- A failed grant with a typical upstream error body. -/
def grantFailInvalidClient : GrantOracle :=
  { ok := false, accessToken := "", httpStatus := 401,
    errorText := "invalid_client" }

/-- A successful MSAL oracle for the token-api broker. -/
def sampleMsalOk : MsalOracle :=
  { ok := true, accessToken := "az-token", errorMsg := "" }

/-- The broker environment with the report id unset. -/
def sampleEnvNoReport : BrokerEnv :=
  { sampleEnv with powerbiReportId := none }

/-- C4: for every pair of successful upstream responses the assembler
produces exactly the merged configuration — generally, `buildEmbedConfig`
yields the record with `type` fixed to `"report"`, the id and embed URL
copied from the report metadata, the three token fields copied from the
mint response, and precisely the default settings (filter pane visible and
collapsed, page navigation visible, status bar visible) with no other
fields; and concretely, the specification's round-trip pair flows through
the whole broker into exactly the expected success payload. -/
theorem buildEmbedConfig_merges_exactly :
    (∀ (rd : PowerBIReportResponse) (raw : RawEmbedTokenData),
      buildEmbedConfig rd raw =
        { type := "report", id := rd.id, embedUrl := rd.embedUrl,
          accessToken := raw.token, tokenId := raw.tokenId,
          expiration := raw.expiration,
          settings :=
            { panes := { filters := { expanded := false, visible := true },
                         pageNavigation := { visible := true } },
              bars := { statusBar := { visible := true } } } }) ∧
    handleRequest sampleEnv sampleAuthedReq sampleJwtOracle sampleGrantOk
        (.ok sampleReport) (.ok sampleRaw) =
      { status := 200,
        outcome := .success
          { type := "report", id := "r1", embedUrl := "https://x",
            accessToken := some (.str "t1"), tokenId := some (.str "k1"),
            expiration := some (.str "2099-01-01T00:00:00Z"),
            settings :=
              { panes := { filters := { expanded := false, visible := true },
                           pageNavigation := { visible := true } },
                bars := { statusBar := { visible := true } } } },
        calls := [.grant, .reportFetch, .mint] } :=
  ⟨fun _ _ => rfl, by decide⟩

/-- C8: the outbound GenerateToken body contains an `identities` array with
exactly one entry `{username, roles: [], datasets: []}` when a (truthy) user
id is supplied, and no `identities` field when the user id is absent or
empty; the token-api variant's body never contains `identities`. -/
theorem mint_body_identities :
    (∀ u : String, (u == "") = false →
      mintRequestBody (some u) =
        { accessLevel := "View", allowSaveAs := false,
          identities := some [{ username := u, roles := [], datasets := [] }] }) ∧
    mintRequestBody none =
      { accessLevel := "View", allowSaveAs := false, identities := none } ∧
    mintRequestBody (some "") =
      { accessLevel := "View", allowSaveAs := false, identities := none } ∧
    tokenApiMintRequestBody =
      { accessLevel := "View", allowSaveAs := false, identities := none } := by
  refine ⟨fun u hu => ?_, rfl, rfl, rfl⟩
  simp [mintRequestBody, hu]

/-- Witness for C8 at the sample user id. -/
theorem mint_body_identities_witness :
    mintRequestBody (some "user-1") =
      { accessLevel := "View", allowSaveAs := false,
        identities := some [{ username := "user-1", roles := [], datasets := [] }] } :=
  mint_body_identities.1 "user-1" (by decide)

/-- C2: the route-style `GET /api/embed/config` handler never reads the
Authorization header — two requests identical except for that header produce
the same response and the same upstream calls — and when configuration and
upstreams are valid it returns the embed configuration to a caller with no
Authorization header at all. -/
theorem route_config_ignores_authorization :
    (∀ (cfg : TokenApiConfig) (a1 a2 qr qw : Option String) (ao : MsalOracle)
        (ro : Except String PowerBIReportResponse)
        (mo : Except String RawEmbedTokenData),
      routeGetConfig cfg
          { authorization := a1, queryReportId := qr, queryWorkspaceId := qw }
          ao ro mo =
        routeGetConfig cfg
          { authorization := a2, queryReportId := qr, queryWorkspaceId := qw }
          ao ro mo) ∧
    (∀ (cfg : TokenApiConfig) (qr qw : Option String) (ao : MsalOracle)
        (ro : Except String PowerBIReportResponse)
        (mo : Except String RawEmbedTokenData)
        (tok : String) (rd : PowerBIReportResponse) (raw : RawEmbedTokenData),
      authGetAccessToken ao = .ok tok →
      truthy (jsOr qr cfg.reportId) = true →
      truthy (jsOr qw cfg.workspaceId) = true →
      ro = .ok rd → mo = .ok raw →
      routeGetConfig cfg
          { authorization := none, queryReportId := qr, queryWorkspaceId := qw }
          ao ro mo =
        { status := 200, success := true, data := some (buildEmbedConfig rd raw),
          error := none, calls := [.grant, .reportFetch, .mint] }) := by
  constructor
  · intro cfg a1 a2 qr qw ao ro mo
    rfl
  · intro cfg qr qw ao ro mo tok rd raw hao hr hw hro hmo
    subst hro
    subst hmo
    simp [routeGetConfig, getEmbedConfigT, hao, hr, hw]

/-- Witness for C2: an unauthenticated request against a valid configuration
receives the assembled configuration with status 200. -/
theorem route_config_ignores_authorization_witness :
    routeGetConfig { workspaceId := some "ws", reportId := some "rp" }
        { authorization := none, queryReportId := none, queryWorkspaceId := none }
        sampleMsalOk (.ok sampleReport) (.ok sampleRaw) =
      { status := 200, success := true,
        data := some (buildEmbedConfig sampleReport sampleRaw),
        error := none, calls := [.grant, .reportFetch, .mint] } :=
  route_config_ignores_authorization.2
    { workspaceId := some "ws", reportId := some "rp" } none none
    sampleMsalOk (.ok sampleReport) (.ok sampleRaw)
    "az-token" sampleReport sampleRaw rfl (by decide) (by decide) rfl rfl

/-- C10: whenever the function-style broker returns a success envelope, the
`expiration` of the returned configuration (and likewise `accessToken` and
`tokenId`) is exactly the corresponding field of the embed-token response
issued by Power BI — it is copied through, never locally computed. -/
theorem success_copies_mint_fields (env : BrokerEnv) (req : BrokerRequest)
    (jo : JwtVerifyOracle) (go : GrantOracle)
    (ro : Except String PowerBIReportResponse)
    (mo : Except String RawEmbedTokenData) (cfg : PowerBIEmbedConfig)
    (h : (handleRequest env req jo go ro mo).outcome = .success cfg) :
    ∃ raw, mo = .ok raw ∧ cfg.accessToken = raw.token ∧
      cfg.tokenId = raw.tokenId ∧ cfg.expiration = raw.expiration := by
  unfold handleRequest at h
  split at h
  · simp at h
  · split at h
    · simp at h
    · split at h
      · simp at h
      · split at h
        · simp at h
        · split at h
          · simp at h
          · simp at h
          · next _ro2 _mo2 rd raw =>
            refine ⟨raw, rfl, ?_⟩
            simp only [BrokerOutcome.success.injEq] at h
            subst h
            exact ⟨rfl, rfl, rfl⟩

/-- Witness for C10 at the sample round-trip input. -/
theorem success_copies_mint_fields_witness :
    ∃ raw, (Except.ok sampleRaw : Except String RawEmbedTokenData) = .ok raw ∧
      (buildEmbedConfig sampleReport sampleRaw).accessToken = raw.token ∧
      (buildEmbedConfig sampleReport sampleRaw).tokenId = raw.tokenId ∧
      (buildEmbedConfig sampleReport sampleRaw).expiration = raw.expiration :=
  success_copies_mint_fields sampleEnv sampleAuthedReq sampleJwtOracle
    sampleGrantOk (.ok sampleReport) (.ok sampleRaw)
    (buildEmbedConfig sampleReport sampleRaw) (by decide)

/-- C7: in the timed model of the `Promise.all` assembly, both sub-calls
start at time 0, so assembly latency is the maximum of the two call
latencies (one call's latency, not the sum) whenever both succeed, it never
exceeds that maximum, and if exactly one sub-call fails the whole assembly
fails with that sub-call's error at that sub-call's completion time. -/
theorem assembly_concurrent_and_fail_fast
    (r : TimedCall PowerBIReportResponse) (m : TimedCall RawEmbedTokenData) :
    (assembleTimed r m).dur ≤ max r.dur m.dur ∧
    (∀ rd raw, r.result = .ok rd → m.result = .ok raw →
      (assembleTimed r m).dur = max r.dur m.dur ∧
      (assembleTimed r m).result = .ok (buildEmbedConfig rd raw)) ∧
    (∀ e raw, r.result = .error e → m.result = .ok raw →
      (assembleTimed r m).dur = r.dur ∧
      (assembleTimed r m).result = .error e) ∧
    (∀ rd e, r.result = .ok rd → m.result = .error e →
      (assembleTimed r m).dur = m.dur ∧
      (assembleTimed r m).result = .error e) := by
  refine ⟨?_, ?_, ?_, ?_⟩
  · rcases hr : r.result with e | rd
    · rcases hm : m.result with f | raw
      · simp only [assembleTimed, promiseAll2, hr, hm]
        split
        · exact Nat.le_max_right _ _
        · exact Nat.le_max_left _ _
      · simp only [assembleTimed, promiseAll2, hr, hm]
        exact Nat.le_max_left _ _
    · rcases hm : m.result with f | raw
      · simp only [assembleTimed, promiseAll2, hr, hm]
        exact Nat.le_max_right _ _
      · simp only [assembleTimed, promiseAll2, hr, hm]
        exact Nat.le_refl _
  · intro rd raw hr hm
    simp [assembleTimed, promiseAll2, hr, hm]
  · intro e raw hr hm
    simp [assembleTimed, promiseAll2, hr, hm]
  · intro rd e hr hm
    simp [assembleTimed, promiseAll2, hr, hm]

/-- Witness for C7: two 100-unit calls assemble in 100 units, and a failing
metadata fetch fails the assembly with its own error. -/
theorem assembly_concurrent_and_fail_fast_witness :
    (assembleTimed { dur := 100, result := .ok sampleReport }
        { dur := 100, result := .ok sampleRaw }).dur = 100 ∧
    (assembleTimed { dur := 100, result := .error "Power BI API error (404): x" }
        { dur := 100, result := .ok sampleRaw }).result =
      .error "Power BI API error (404): x" := by
  constructor
  · have h :=
      ((assembly_concurrent_and_fail_fast
          { dur := 100, result := .ok sampleReport }
          { dur := 100, result := .ok sampleRaw }).2.1 sampleReport sampleRaw
        rfl rfl).1
    simpa using h
  · exact ((assembly_concurrent_and_fail_fast
        { dur := 100, result := .error "Power BI API error (404): x" }
        { dur := 100, result := .ok sampleRaw }).2.2.1
        "Power BI API error (404): x" sampleRaw rfl rfl).2

/-- C1 counterexample: a request with no Authorization header is answered
with HTTP status 400, not the claimed 401 — the thrown message `'Missing or
invalid Authorization header'` matches the status mapper's `'Missing'`
branch before the `'Invalid or expired token'` branch is ever relevant.
(The "no upstream call" half of the claim does hold: the calls list is
empty.) -/
theorem missing_auth_header_status_400_not_401 :
    (handleRequest sampleEnv { method := "GET", authorization := none }
        sampleJwtOracle sampleGrantOk (.ok sampleReport) (.ok sampleRaw)).status
      = 400 ∧
    ¬ (handleRequest sampleEnv { method := "GET", authorization := none }
        sampleJwtOracle sampleGrantOk (.ok sampleReport) (.ok sampleRaw)).status
      = 401 ∧
    (handleRequest sampleEnv { method := "GET", authorization := none }
        sampleJwtOracle sampleGrantOk (.ok sampleReport) (.ok sampleRaw)).calls
      = [] := by
  decide

/-- C1 (amended): for every non-preflight request whose Authorization header
is missing or malformed (it does not start with `'Bearer '`), the broker
responds with status 400 carrying the message
`'Missing or invalid Authorization header'`, and no upstream call — grant,
report-metadata fetch, or embed-token mint — is attempted before that
response is produced. -/
theorem missing_auth_header_rejected_before_upstream
    (env : BrokerEnv) (req : BrokerRequest) (jo : JwtVerifyOracle)
    (go : GrantOracle) (ro : Except String PowerBIReportResponse)
    (mo : Except String RawEmbedTokenData)
    (hm : (req.method == "OPTIONS") = false)
    (ha : strStartsWith ((req.authorization).getD "") "Bearer " = false) :
    handleRequest env req jo go ro mo =
      { status := 400,
        outcome := .failure "Missing or invalid Authorization header",
        calls := [] } := by
  have h400 : statusCode "Missing or invalid Authorization header" = 400 := by
    decide
  simp [handleRequest, verifySupabaseJWT, hm, ha, h400]

/-- Witness for the amended C1 at a concrete header-less request. -/
theorem missing_auth_header_rejected_before_upstream_witness :
    handleRequest sampleEnv { method := "GET", authorization := none }
        sampleJwtOracle sampleGrantOk (.ok sampleReport) (.ok sampleRaw) =
      { status := 400,
        outcome := .failure "Missing or invalid Authorization header",
        calls := [] } :=
  missing_auth_header_rejected_before_upstream sampleEnv
    { method := "GET", authorization := none } sampleJwtOracle sampleGrantOk
    (.ok sampleReport) (.ok sampleRaw) (by decide) (by decide)

/-- C3 counterexample: in the `index.ts` broker, a GenerateToken response
missing `tokenId` does not fail the mint with a distinct
`MalformedUpstreamResponse` error — the raw fields flow straight into a
status-200 success envelope whose configuration has no `tokenId`, i.e. a
partially-populated `EmbedConfiguration` is returned. -/
theorem missing_tokenId_reaches_success_envelope :
    handleRequest sampleEnv sampleAuthedReq sampleJwtOracle sampleGrantOk
        (.ok sampleReport) (.ok sampleRawMissingTokenId) =
      { status := 200,
        outcome := .success
          { type := "report", id := "r1", embedUrl := "https://x",
            accessToken := some (.str "t1"), tokenId := none,
            expiration := some (.str "2099-01-01T00:00:00Z"),
            settings := defaultEmbedSettings },
        calls := [.grant, .reportFetch, .mint] } := by
  decide

/-- C3 (amended): only the part_000 broker variant validates the mint
response, and there the validation is strict: a response whose `token`,
`tokenId` or `expiration` is absent or not a string is rejected with the
distinct error `mintMalformedMsg`, and every accepted response has all
three fields present as strings (so no partially-populated configuration
can come out of a successful validation). -/
theorem part000_mint_validation_strict (d : RawEmbedTokenData) :
    (∀ r, validateEmbedTokenResponse d = .ok r →
      d.token = some (.str r.token) ∧ d.tokenId = some (.str r.tokenId) ∧
        d.expiration = some (.str r.expiration)) ∧
    ((isStringPrim d.token && isStringPrim d.tokenId
        && isStringPrim d.expiration) = false →
      validateEmbedTokenResponse d = .error mintMalformedMsg) := by
  constructor
  · intro r h
    unfold validateEmbedTokenResponse at h
    split at h
    · next t k e ht hk he =>
      simp only [Except.ok.injEq] at h
      subst h
      exact ⟨ht, hk, he⟩
    · simp at h
  · intro hbad
    unfold validateEmbedTokenResponse
    split
    · next t k e ht hk he =>
      rw [ht, hk, he] at hbad
      simp [isStringPrim] at hbad
    · rfl

/-- Witness for the amended C3: the response missing `tokenId` is rejected
with the distinct malformed-response error. -/
theorem part000_mint_validation_strict_witness :
    validateEmbedTokenResponse sampleRawMissingTokenId =
      .error mintMalformedMsg :=
  (part000_mint_validation_strict sampleRawMissingTokenId).2 (by decide)

/-- C5 counterexample: acceptance is not decided by a single verification
function applied once.  Two runs whose first-strategy (base64-string secret)
verification results are identical — both fail — end differently: under
`fallbackOracleBytes` the decoded-bytes fallback succeeds and the token is
accepted, under `fallbackOracleNone` it is rejected.  The fallback retries
verification under an alternative encoding of the signing secret, exactly
what the claim rules out. -/
theorem verification_not_single_strategy :
    verifySupabaseJWT (some "Bearer session-token") (some "jwt-secret")
        fallbackOracleBytes = .ok samplePayload ∧
    verifySupabaseJWT (some "Bearer session-token") (some "jwt-secret")
        fallbackOracleNone = .error "Invalid or expired token" ∧
    fallbackOracleBytes.verifyString = fallbackOracleNone.verifyString := by
  refine ⟨rfl, rfl, rfl⟩

/-- C5 (amended): `verifySupabaseJWT` tries up to three encodings of the
signing secret in order — the base64 string itself, the base64-decoded
bytes, an imported HMAC `CryptoKey` — accepts the first attempt that
succeeds, and rejects with `'Invalid or expired token'` only when all three
fail. -/
theorem verification_fallback_cascade (h s : String) (o : JwtVerifyOracle)
    (hh : strStartsWith h "Bearer " = true) (hs : (s == "") = false)
    (hd : o.decodeOk = true) :
    (∀ p, o.verifyString = some p →
      verifySupabaseJWT (some h) (some s) o = .ok p) ∧
    (∀ p, o.verifyString = none → o.verifyBytes = some p →
      verifySupabaseJWT (some h) (some s) o = .ok p) ∧
    (∀ p, o.verifyString = none → o.verifyBytes = none → o.verifyKey = some p →
      verifySupabaseJWT (some h) (some s) o = .ok p) ∧
    (o.verifyString = none → o.verifyBytes = none → o.verifyKey = none →
      verifySupabaseJWT (some h) (some s) o =
        .error "Invalid or expired token") := by
  refine ⟨?_, ?_, ?_, ?_⟩ <;> intros <;>
    simp [verifySupabaseJWT, truthy, hh, hs, hd, *]

/-- Witness for the amended C5: a token failing the string-secret attempt is
accepted through the decoded-bytes fallback. -/
theorem verification_fallback_cascade_witness :
    verifySupabaseJWT (some "Bearer session-token") (some "jwt-secret")
        fallbackOracleBytes = .ok samplePayload :=
  (verification_fallback_cascade "Bearer session-token" "jwt-secret"
      fallbackOracleBytes (by decide) (by decide) (by decide)).2.1
    samplePayload rfl rfl

/-- Helper: the grant step attempts either no call (configuration missing)
or exactly the grant call, and a successful grant always attempts exactly
the grant call. -/
theorem getAzureAccessTokenT_trace (env : BrokerEnv) (g : GrantOracle) :
    ((getAzureAccessTokenT env g).2 = [] ∨
     (getAzureAccessTokenT env g).2 = [UpstreamCall.grant]) ∧
    (∀ tok cs, getAzureAccessTokenT env g = (.ok tok, cs) →
      cs = [UpstreamCall.grant]) := by
  unfold getAzureAccessTokenT
  split
  · refine ⟨Or.inl rfl, ?_⟩
    intro tok cs h
    simp at h
  · split
    · refine ⟨Or.inr rfl, ?_⟩
      intro tok cs h
      simp only [Prod.mk.injEq] at h
      exact h.2.symm
    · refine ⟨Or.inr rfl, ?_⟩
      intro tok cs h
      simp at h

/-- C6 counterexample: a failed service-principal grant does not always
yield status 401/500.  When the token endpoint's error body contains the
word `Missing`, the constructed message
`'Failed to acquire Azure AD token: 400 Missing client_secret'` matches the
status mapper's `'Missing'` branch and the endpoint answers 400.  (The
short-circuit half of the claim does hold: only the grant call was
attempted.) -/
theorem grant_failure_can_return_400 :
    (handleRequest sampleEnv sampleAuthedReq sampleJwtOracle
        grantFailMissingText (.ok sampleReport) (.ok sampleRaw)).status = 400 ∧
    ¬ ((handleRequest sampleEnv sampleAuthedReq sampleJwtOracle
          grantFailMissingText (.ok sampleReport) (.ok sampleRaw)).status = 401 ∨
       (handleRequest sampleEnv sampleAuthedReq sampleJwtOracle
          grantFailMissingText (.ok sampleReport) (.ok sampleRaw)).status = 500) ∧
    (handleRequest sampleEnv sampleAuthedReq sampleJwtOracle
        grantFailMissingText (.ok sampleReport) (.ok sampleRaw)).calls =
      [UpstreamCall.grant] := by
  decide

/-- C6 (amended): the pipeline is strictly ordered — the attempted-call
trace of any request is `[]`, `[grant]`, or `[grant, reportFetch, mint]` —
and when the caller is authenticated, both configurations are present and
the service-principal grant fails, the endpoint stops after the grant call
(neither the metadata fetch nor the mint is attempted) and answers with the
substring-mapped status of the constructed grant-failure message (500 for
typical bodies, 400/401 when the body text itself contains `'Missing'` or
`'Invalid or expired token'`). -/
theorem grant_failure_short_circuits_pipeline (env : BrokerEnv)
    (req : BrokerRequest) (jo : JwtVerifyOracle) (go : GrantOracle)
    (ro : Except String PowerBIReportResponse)
    (mo : Except String RawEmbedTokenData) :
    ((handleRequest env req jo go ro mo).calls = [] ∨
     (handleRequest env req jo go ro mo).calls = [UpstreamCall.grant] ∨
     (handleRequest env req jo go ro mo).calls =
       [UpstreamCall.grant, UpstreamCall.reportFetch, UpstreamCall.mint]) ∧
    (∀ p, (req.method == "OPTIONS") = false →
      verifySupabaseJWT (some ((req.authorization).getD ""))
          env.supabaseJwtSecret jo = .ok p →
      (truthy env.powerbiWorkspaceId && truthy env.powerbiReportId) = true →
      (truthy env.azureClientId && truthy env.azureClientSecret
          && truthy env.azureTenantId) = true →
      go.ok = false →
      handleRequest env req jo go ro mo =
        { status := statusCode ("Failed to acquire Azure AD token: "
            ++ toString go.httpStatus ++ " " ++ go.errorText),
          outcome := .failure ("Failed to acquire Azure AD token: "
            ++ toString go.httpStatus ++ " " ++ go.errorText),
          calls := [UpstreamCall.grant] }) := by
  constructor
  · unfold handleRequest
    split
    · exact Or.inl rfl
    · split
      · exact Or.inl rfl
      · split
        · exact Or.inl rfl
        · split
          · next e cs hga =>
            rcases (getAzureAccessTokenT_trace env go).1 with hc | hc <;>
              rw [hga] at hc <;> simp at hc <;> simp [hc]
          · next tok cs hga =>
            have hc := (getAzureAccessTokenT_trace env go).2 tok cs hga
            subst hc
            split <;> simp
  · intro p hm hv hcfg hazure hgo
    simp [handleRequest, hm, hv, hcfg, getAzureAccessTokenT, hazure, hgo]

/-- Witness for the amended C6: with a typical failed grant the endpoint
answers 500 after attempting only the grant call. -/
theorem grant_failure_short_circuits_pipeline_witness :
    handleRequest sampleEnv sampleAuthedReq sampleJwtOracle
        grantFailInvalidClient (.ok sampleReport) (.ok sampleRaw) =
      { status := statusCode ("Failed to acquire Azure AD token: "
          ++ toString grantFailInvalidClient.httpStatus ++ " "
          ++ grantFailInvalidClient.errorText),
        outcome := .failure ("Failed to acquire Azure AD token: "
          ++ toString grantFailInvalidClient.httpStatus ++ " "
          ++ grantFailInvalidClient.errorText),
        calls := [UpstreamCall.grant] } :=
  (grant_failure_short_circuits_pipeline sampleEnv sampleAuthedReq
      sampleJwtOracle grantFailInvalidClient (.ok sampleReport)
      (.ok sampleRaw)).2 samplePayload (by decide) rfl (by decide) (by decide)
    rfl

/-- C9 counterexample: in the route-style broker, a request to
`GET /api/embed/config` with the workspace and report ids absent from both
the query string and the environment configuration is answered with status
500, not the claimed 400 — the route's `catch` maps every failure,
including the missing-id error thrown inside `generateEmbedToken`, to 500. -/
theorem route_missing_ids_returns_500 :
    routeGetConfig { workspaceId := none, reportId := none }
        { authorization := none, queryReportId := none, queryWorkspaceId := none }
        sampleMsalOk (.ok sampleReport) (.ok sampleRaw) =
      { status := 500, success := false, data := none,
        error := some "Report ID and Workspace ID are required",
        calls := [UpstreamCall.grant, UpstreamCall.reportFetch] } ∧
    ¬ (routeGetConfig { workspaceId := none, reportId := none }
        { authorization := none, queryReportId := none, queryWorkspaceId := none }
        sampleMsalOk (.ok sampleReport) (.ok sampleRaw)).status = 400 := by
  decide

/-- C9 (amended): the 400 response for an absent workspace/report id is a
property of the function-style broker only — there, every authenticated
request with either id missing from the environment gets status 400 with no
upstream call attempted — while the route-style `GET /api/embed/config`
answers 500 from its catch-all when both the query parameters and the
configured defaults are absent. -/
theorem missing_ids_status_by_variant :
    (∀ (env : BrokerEnv) (req : BrokerRequest) (jo : JwtVerifyOracle)
        (go : GrantOracle) (ro : Except String PowerBIReportResponse)
        (mo : Except String RawEmbedTokenData) (p : JwtPayload),
      (req.method == "OPTIONS") = false →
      verifySupabaseJWT (some ((req.authorization).getD ""))
          env.supabaseJwtSecret jo = .ok p →
      (truthy env.powerbiWorkspaceId && truthy env.powerbiReportId) = false →
      handleRequest env req jo go ro mo =
        { status := 400,
          outcome := .failure "Missing Power BI workspace or report configuration",
          calls := [] }) ∧
    (∀ (cfg : TokenApiConfig) (req : RouteRequest) (ao : MsalOracle)
        (ro : Except String PowerBIReportResponse)
        (mo : Except String RawEmbedTokenData) (tok : String),
      authGetAccessToken ao = .ok tok →
      (truthy (jsOr req.queryReportId cfg.reportId)
          && truthy (jsOr req.queryWorkspaceId cfg.workspaceId)) = false →
      routeGetConfig cfg req ao ro mo =
        { status := 500, success := false, data := none,
          error := some "Report ID and Workspace ID are required",
          calls := [UpstreamCall.grant, UpstreamCall.reportFetch] }) := by
  constructor
  · intro env req jo go ro mo p hm hv hids
    have h400 :
        statusCode "Missing Power BI workspace or report configuration" = 400 := by
      decide
    simp [handleRequest, hm, hv, hids, h400]
  · intro cfg req ao ro mo tok hao hids
    simp [routeGetConfig, getEmbedConfigT, hao, hids]

/-- Witness for the amended C9: both variants at concrete inputs with the
report id unset. -/
theorem missing_ids_status_by_variant_witness :
    handleRequest sampleEnvNoReport sampleAuthedReq sampleJwtOracle
        sampleGrantOk (.ok sampleReport) (.ok sampleRaw) =
      { status := 400,
        outcome := .failure "Missing Power BI workspace or report configuration",
        calls := [] } ∧
    routeGetConfig { workspaceId := some "ws", reportId := none }
        { authorization := none, queryReportId := none, queryWorkspaceId := none }
        sampleMsalOk (.ok sampleReport) (.ok sampleRaw) =
      { status := 500, success := false, data := none,
        error := some "Report ID and Workspace ID are required",
        calls := [UpstreamCall.grant, UpstreamCall.reportFetch] } :=
  ⟨missing_ids_status_by_variant.1 sampleEnvNoReport sampleAuthedReq
      sampleJwtOracle sampleGrantOk (.ok sampleReport) (.ok sampleRaw)
      samplePayload (by decide) rfl (by decide),
   missing_ids_status_by_variant.2 { workspaceId := some "ws", reportId := none }
      { authorization := none, queryReportId := none, queryWorkspaceId := none }
      sampleMsalOk (.ok sampleReport) (.ok sampleRaw) "az-token" rfl (by decide)⟩
